import Mathlib

/-!
Shallow embedding of the MarriageBot repository's core subsystems:

* `src/cogs/utils/database.py` — the `DatabaseConnection` wrapper class
  (`create_pool`, `disconnect`, `start_transaction`, `commit_transaction`,
  `__call__`, `marry`);
* `src/cogs/redis_handler.py` — the `RedisHandler` cog
  (`channel_handler`'s receive loop, `cog_unload`).

Python exceptions are modelled with `Except`; the PostgreSQL backend that
executes `INSERT` statements is a parameter of the transactional
operations (with a concrete duplicate-key model `pgInsert` for evaluation);
machine timestamps are `Nat` (the single `dt.utcnow()` reading that the
source captures).
-/

set_option autoImplicit false

namespace MarriageBot

/-- A row of the `marriages` table: the column tuple
`(user_id, partner_id, guild_id, timestamp)` used by the two `INSERT`
statements of `DatabaseConnection.marry`.  Discord snowflake ids and the
timestamp are modelled as `Nat`. -/
structure Row where
  user_id : Nat
  partner_id : Nat
  guild_id : Nat
  timestamp : Nat
  deriving DecidableEq, Repr

/-- The Python exceptions relevant to the database wrapper: errors raised by
the asyncpg backend (such as a unique-constraint violation), the error
classes the specification names (which do not occur in the source), and
`SystemExit code` raised by `exit(code)`. -/
inductive PyError where
  | uniqueViolation
  | transactionAlreadyActive
  | protocolViolation
  | configError
  | systemExit (code : Nat)
  deriving DecidableEq, Repr

/-- State of one `DatabaseConnection` lease together with the backend table
it talks to: `committedRows` is the `marriages` table as any external reader
sees it, `conn` records whether the pooled connection is held
(`self.conn` non-`None`), and `transaction` is `self.transaction` — `none`
when no transaction is open, `some pending` when a transaction is open with
`pending` as its working view of the table. -/
structure DbState where
  committedRows : List Row
  conn : Bool
  transaction : Option (List Row)
  deriving DecidableEq, Repr

/-- The `config` dict handed to `DatabaseConnection.create_pool`: the
`"enabled"` key (popped by the source) and the remaining keyword arguments
passed on to `asyncpg.create_pool`. -/
structure DbConfigMap where
  enabled : Bool
  connArgs : List (String × String)
  deriving DecidableEq, Repr

/-- Possible outcomes of a call to `DatabaseConnection.create_pool`:
the process is terminated via `exit(code)`, a Python exception is raised
to the caller, or the pool is created from the given keyword arguments. -/
inductive CreatePoolResult where
  | exitedProcess (code : Nat)
  | raised (e : PyError)
  | poolCreated (kwargs : List (String × String))
  deriving DecidableEq, Repr

/-- `DatabaseConnection.create_pool` (src/cogs/utils/database.py:26-37):
pops `"enabled"` from a copy of the config; if it is `False`, logs a
critical message and calls `exit(1)` (terminating the process — no
exception class of the source is involved); otherwise creates the pool
from the remaining keyword arguments. -/
def create_pool (config : DbConfigMap) : CreatePoolResult :=
  if config.enabled = false then
    CreatePoolResult.exitedProcess 1
  else
    CreatePoolResult.poolCreated config.connArgs

/-- `DatabaseConnection.disconnect` (src/cogs/utils/database.py:46-51):
releases the connection back to the pool and clears `self.conn`,
unconditionally — the body contains no check of `self.transaction` and no
`raise`, so it always returns normally. -/
def disconnect (s : DbState) : Except PyError DbState :=
  Except.ok { s with conn := false }

/-- `DatabaseConnection.start_transaction` (src/cogs/utils/database.py:53-57):
`self.transaction = self.conn.transaction(); await self.transaction.start()`.
The body contains no check of `self.transaction` and no `raise`: it
overwrites the marker with a fresh transaction whose working view starts
from the committed table. -/
def start_transaction (s : DbState) : Except PyError DbState :=
  Except.ok { s with transaction := some s.committedRows }

/-- `DatabaseConnection.commit_transaction` (src/cogs/utils/database.py:59-63):
commits the open transaction (its pending view becomes the committed
table) and clears the marker.  The source always calls it with an open
transaction; the `none` branch is never reached from `marry`. -/
def commit_transaction (s : DbState) : DbState :=
  match s.transaction with
  | some pending => { s with committedRows := pending, transaction := none }
  | none => s

/-- `self.transaction.rollback()` as called from `marry`'s `except` block:
the pending view is discarded and the marker cleared; the committed table
is untouched. -/
def rollback_transaction (s : DbState) : DbState :=
  { s with transaction := none }

/-- Lowercases one ASCII letter; models Python's `str.casefold` on the
ASCII SQL text of the source. -/
def asciiLower (c : Char) : Char :=
  if 65 ≤ c.toNat ∧ c.toNat ≤ 90 then Char.ofNat (c.toNat + 32) else c

/-- `charsStartWith pat s` is true when `pat` is an initial segment of `s`. -/
def charsStartWith : List Char → List Char → Bool
  | [], _ => true
  | _ :: _, [] => false
  | p :: ps, c :: cs => p == c && charsStartWith ps cs

/-- `charsContain pat s` is Python's `pat in s` substring test on
character lists. -/
def charsContain (pat : List Char) : List Char → Bool
  | [] => charsStartWith pat []
  | c :: cs => charsStartWith pat (c :: cs) || charsContain pat cs

/-- The statement classification of `DatabaseConnection.__call__`:
`"select" in sql.casefold() or "returning" in sql.casefold()`. -/
def sqlIsRead (sql : String) : Bool :=
  charsContain "select".toList (sql.toList.map asciiLower) ||
    charsContain "returning".toList (sql.toList.map asciiLower)

/-- The return value of `DatabaseConnection.__call__`
(src/cogs/utils/database.py:74-91) given the rows `fetched` by the backend:
on the read path (`select`/`returning` present) it returns the fetched
rows, falling through to `return []` when the fetch was empty; on the
mutation path it executes the statement and returns `None` (the bare
`return`).  The trailing `return None` of the source is dead code, reached
only when the read test just re-succeeded.  The mutation's effect on the
table is modelled separately by `run_insert`. -/
def db_call (sql : String) (fetched : List Row) : Option (List Row) :=
  if sqlIsRead sql then
    if !fetched.isEmpty then some fetched
    else if sqlIsRead sql then some []
    else none
  else
    none

/-- Executing one `INSERT` through `self(...)` on a lease: the backend
function `ins` (a parameter — the relational engine is external to the
repository) maps the current table contents and the new row either to the
new contents or to a raised error.  Inside an open transaction the insert
acts on the pending view; outside one it autocommits onto the table. -/
def run_insert (ins : List Row → Row → Except PyError (List Row))
    (s : DbState) (r : Row) : Except PyError DbState :=
  match s.transaction with
  | some pending =>
    match ins pending r with
    | Except.error e => Except.error e
    | Except.ok pending2 => Except.ok { s with transaction := some pending2 }
  | none =>
    match ins s.committedRows r with
    | Except.error e => Except.error e
    | Except.ok db2 => Except.ok { s with committedRows := db2 }

/-- A `marry` argument: either a raw id or a `discord.User`; the source
normalises both with `getattr(x, "id", x)`. -/
inductive UserArg where
  | rawId (n : Nat)
  | user (id : Nat)
  deriving DecidableEq, Repr

/-- `getattr(x, "id", x)`. -/
def userArgId : UserArg → Nat
  | UserArg.rawId n => n
  | UserArg.user n => n

/-- `DatabaseConnection.marry` (src/cogs/utils/database.py:93-124):
normalises the two user arguments, starts a transaction, captures
`timestamp = dt.utcnow()` once (the `timestamp` parameter models that
single clock reading), runs the two symmetric `INSERT` statements —
`VALUES ($1, $2, $3, $4)` then `VALUES ($2, $1, $3, $4)` — with the same
four arguments; on any raised error rolls back and re-raises that same
error; on success commits.  Returns the raised-or-returned outcome paired
with the final lease/table state. -/
def marry (ins : List Row → Row → Except PyError (List Row))
    (instigator target : UserArg) (guild_id timestamp : Nat)
    (s : DbState) : Except PyError Unit × DbState :=
  let instigator_id := userArgId instigator
  let target_id := userArgId target
  match start_transaction s with
  | Except.error e => (Except.error e, s)
  | Except.ok s0 =>
    match run_insert ins s0 ⟨instigator_id, target_id, guild_id, timestamp⟩ with
    | Except.error e => (Except.error e, rollback_transaction s0)
    | Except.ok s1 =>
      match run_insert ins s1 ⟨target_id, instigator_id, guild_id, timestamp⟩ with
      | Except.error e => (Except.error e, rollback_transaction s1)
      | Except.ok s2 => (Except.ok (), commit_transaction s2)

/-- A concrete backend for evaluation: PostgreSQL-style `INSERT` into
`marriages` under a unique constraint on `(user_id, partner_id, guild_id)` —
raises a duplicate-key violation when such a row already exists, otherwise
appends the row. -/
def pgInsert (db : List Row) (r : Row) : Except PyError (List Row) :=
  if db.any (fun q =>
      q.user_id == r.user_id && q.partner_id == r.partner_id &&
        q.guild_id == r.guild_id) then
    Except.error PyError.uniqueViolation
  else
    Except.ok (db ++ [r])

/-- A successful `pgInsert` appends exactly the new row. -/
theorem pgInsert_append (db : List Row) (r : Row) (db' : List Row)
    (h : pgInsert db r = Except.ok db') : db' = db ++ [r] := by
  unfold pgInsert at h
  split at h
  · exact absurd h (by simp)
  · exact (Except.ok.injEq _ _ ▸ h.symm)

/-- An error escaping the receive loop of `RedisHandler.channel_handler`:
either `channel.get_json()` raised while decoding a message, or the
registered handler function raised. -/
inductive LoopErr (δ η : Type) where
  | decodeFailed (e : δ)
  | handlerFailed (e : η)
  deriving DecidableEq, Repr

/-- The `while (await channel.wait_message()): ...` receive loop of
`RedisHandler.channel_handler` (src/cogs/redis_handler.py:46-54), run over
the finite sequence of messages delivered before the channel closes.
For each message in delivery order: `channel.get_json()` decodes it, then
the registered `function` is invoked on the decoded payload (awaited when
it is a coroutine — either way the loop does not proceed until it
returns).  The loop body contains no `try`/`except`, so a decode error or
a handler error propagates out of the loop at once.  Returns the trace of
payloads on which the handler was invoked, in invocation order, together
with the error that escaped the loop (`none` when the channel closed
normally). -/
def channel_handler {μ π δ η : Type} (decode : μ → Except δ π)
    (handler : π → Except η Unit) : List μ → List π × Option (LoopErr δ η)
  | [] => ([], none)
  | m :: ms =>
    match decode m with
    | Except.error e => ([], some (LoopErr.decodeFailed e))
    | Except.ok data =>
      match handler data with
      | Except.error e => ([data], some (LoopErr.handlerFailed e))
      | Except.ok _ =>
        let rest := channel_handler decode handler ms
        (data :: rest.1, rest.2)

/-- An `asyncio.Task` wrapping one channel handler; `cancel()` merely sets
the flag (cancelling an already-cancelled task is a no-op and raises
nothing). -/
structure TaskHandle where
  cancelled : Bool
  deriving DecidableEq, Repr

/-- An externally observable side effect of `RedisHandler.cog_unload`:
cancelling one handler task, or unsubscribing from a named Redis
channel. -/
inductive RedisEffect where
  | cancelHandler
  | unsubscribe (channel : String)
  deriving DecidableEq, Repr

/-- The `RedisHandler` cog state relevant to unloading: the list of
handler tasks (`self.handlers`) and the channel-name list
(`self._channels`, appended to by `channel_handler` on subscribe). -/
structure RedisHandlerState where
  handlers : List TaskHandle
  channels : List String
  deriving DecidableEq, Repr

/-- Python's `list.remove(x)`: drops the first occurrence of `x`. -/
def removeFirst : List String → String → List String
  | [], _ => []
  | c :: cs, x => if c == x then cs else c :: removeFirst cs x

/-- `RedisHandler.cog_unload` (src/cogs/redis_handler.py:26-34): cancels
every handler task, then iterates over a *copy* of `self._channels`,
unsubscribing from each channel and removing it from the live list.
Returns the new cog state and the ordered list of side effects
performed. -/
def cog_unload (s : RedisHandlerState) : RedisHandlerState × List RedisEffect :=
  let cancelEffects := s.handlers.map (fun _ => RedisEffect.cancelHandler)
  let cancelledHandlers := s.handlers.map (fun _ => TaskHandle.mk true)
  let step := fun (acc : List String × List RedisEffect) (ch : String) =>
    (removeFirst acc.1 ch, acc.2 ++ [RedisEffect.unsubscribe ch])
  let result := s.channels.foldl step (s.channels, [])
  ({ handlers := cancelledHandlers, channels := result.1 },
    cancelEffects ++ result.2)

/-- Whether a `cog_unload` side effect is an unsubscribe. -/
def isUnsubscribe : RedisEffect → Bool
  | RedisEffect.unsubscribe _ => true
  | RedisEffect.cancelHandler => false

/-- C4: a statement classified as a read (its text contains `select` or
`returning`, case-insensitively) returns exactly the fetched sequence of
rows — in particular the empty list, never `None`, when zero rows match —
while a statement classified as a mutation returns `None` (no rows). -/
theorem db_call_read_vs_mutation (sql : String) (fetched : List Row) :
    (sqlIsRead sql = true → db_call sql fetched = some fetched) ∧
    (sqlIsRead sql = false → db_call sql fetched = none) := by
  refine ⟨fun h => ?_, fun h => ?_⟩
  · cases fetched with
    | nil => simp [db_call, h]
    | cons a as => simp [db_call, h]
  · simp [db_call, h]

/-- Witness for C4: a `SELECT` with zero matching rows yields `some []`,
and the `marry` `INSERT` statement yields `none`. -/
theorem db_call_read_vs_mutation_witness :
    db_call "SELECT * FROM marriages WHERE guild_id=$1" [] = some [] ∧
    db_call "INSERT INTO marriages (user_id, partner_id, guild_id, timestamp) VALUES ($1, $2, $3, $4)" [] = none := by
  exact ⟨(db_call_read_vs_mutation _ []).1 (by decide),
         (db_call_read_vs_mutation _ []).2 (by decide)⟩

/-- C6 counterexample: on a lease with a transaction already open
(`transaction = some []`), `start_transaction` does not fail with
`TransactionAlreadyActiveError` (no such check or error class exists in
the source) — it succeeds, replacing the marker. -/
theorem start_transaction_counterexample :
    start_transaction ⟨[⟨1, 2, 3, 4⟩], true, some []⟩ =
      Except.ok ⟨[⟨1, 2, 3, 4⟩], true, some [⟨1, 2, 3, 4⟩]⟩ ∧
    start_transaction ⟨[⟨1, 2, 3, 4⟩], true, some []⟩ ≠
      Except.error PyError.transactionAlreadyActive := by
  refine ⟨rfl, fun h => ?_⟩
  exact Except.noConfusion h

/-- C6 (amended): calling `start_transaction` on a lease with a
transaction already open does not fail: it returns normally, overwriting
the lease's transaction marker with a fresh transaction. -/
theorem start_transaction_replaces_marker (s : DbState)
    (_h : s.transaction.isSome = true) :
    start_transaction s = Except.ok { s with transaction := some s.committedRows } := rfl

/-- Witness for the amended C6. -/
theorem start_transaction_replaces_marker_witness :
    start_transaction ⟨[⟨1, 2, 3, 4⟩], true, some []⟩ =
      Except.ok ⟨[⟨1, 2, 3, 4⟩], true, some [⟨1, 2, 3, 4⟩]⟩ :=
  start_transaction_replaces_marker ⟨[⟨1, 2, 3, 4⟩], true, some []⟩ rfl

/-- C7 counterexample: with the subsystem disabled, `create_pool`
terminates the process via `exit(1)`; no `ConfigError` is raised to the
caller (no such error class exists in the source). -/
theorem create_pool_counterexample :
    create_pool ⟨false, []⟩ = CreatePoolResult.exitedProcess 1 ∧
    create_pool ⟨false, []⟩ ≠ CreatePoolResult.raised PyError.configError := by
  decide

/-- C7 (amended): for every configuration whose `enabled` flag marks the
database subsystem disabled, `create_pool` logs a critical message and
terminates the process with exit code 1 (rather than raising a
`ConfigError`), and no pool is created. -/
theorem create_pool_disabled_exits (config : DbConfigMap)
    (h : config.enabled = false) :
    create_pool config = CreatePoolResult.exitedProcess 1 := by
  simp [create_pool, h]

/-- Witness for the amended C7. -/
theorem create_pool_disabled_exits_witness :
    create_pool ⟨false, [("host", "localhost")]⟩ = CreatePoolResult.exitedProcess 1 :=
  create_pool_disabled_exits ⟨false, [("host", "localhost")]⟩ rfl

/-- C8 counterexample: releasing a lease whose transaction marker is still
non-null does not report `ProtocolViolationError` (the source's
`disconnect` never inspects `self.transaction`) — the connection is
returned to the pool silently. -/
theorem disconnect_counterexample :
    disconnect ⟨[], true, some []⟩ =
      Except.ok ⟨[], false, some []⟩ ∧
    disconnect ⟨[], true, some []⟩ ≠
      Except.error PyError.protocolViolation := by
  refine ⟨rfl, fun h => ?_⟩
  exact Except.noConfusion h

/-- C8 (amended): releasing a lease while its `active_transaction` marker
is still non-null returns the connection to the pool silently, with no
error reported. -/
theorem disconnect_ignores_dangling_transaction (s : DbState)
    (_h : s.transaction.isSome = true) :
    disconnect s = Except.ok { s with conn := false } := rfl

/-- Witness for the amended C8. -/
theorem disconnect_ignores_dangling_transaction_witness :
    disconnect ⟨[], true, some []⟩ =
      Except.ok ⟨[], false, some []⟩ :=
  disconnect_ignores_dangling_transaction ⟨[], true, some []⟩ rfl

/-- The first component of `cog_unload`'s channel fold ignores the
accumulated effect list. -/
theorem unload_fold_fst (l : List String) (init : List String)
    (effs : List RedisEffect) :
    (l.foldl (fun acc ch => (removeFirst acc.1 ch, acc.2 ++ [RedisEffect.unsubscribe ch]))
        (init, effs)).1 = l.foldl removeFirst init := by
  induction l generalizing init effs with
  | nil => rfl
  | cons a l ih => exact ih (removeFirst init a) (effs ++ [RedisEffect.unsubscribe a])

/-- Removing, in order, every element of a list from that same list leaves
the empty list (Python: iterating over `lst.copy()` and calling
`lst.remove` on each element empties `lst`). -/
theorem foldl_removeFirst_self (l : List String) : l.foldl removeFirst l = [] := by
  induction l with
  | nil => rfl
  | cons a l ih =>
    have h : removeFirst (a :: l) a = l := by simp [removeFirst]
    calc List.foldl removeFirst (a :: l) (a :: l)
        = List.foldl removeFirst (removeFirst (a :: l) a) l := rfl
      _ = List.foldl removeFirst l l := by rw [h]
      _ = [] := ih

/-- After one `cog_unload`, the live channel list is empty. -/
theorem cog_unload_channels_nil (s : RedisHandlerState) :
    (cog_unload s).1.channels = [] := by
  show (s.channels.foldl
      (fun acc ch => (removeFirst acc.1 ch, acc.2 ++ [RedisEffect.unsubscribe ch]))
      (s.channels, [])).1 = []
  rw [unload_fold_fst]
  exact foldl_removeFirst_self s.channels

/-- A list of cancel effects contains no unsubscribe effect. -/
theorem filter_unsub_cancel (l : List TaskHandle) :
    ((l.map fun _ => RedisEffect.cancelHandler).filter isUnsubscribe) = [] := by
  induction l with
  | nil => rfl
  | cons a l ih => simp [List.filter, isUnsubscribe, ih]

/-- `cog_unload` on a cog whose channel list is already empty: the tasks
are (re-)cancelled and nothing is unsubscribed. -/
theorem cog_unload_no_channels (hs : List TaskHandle) :
    cog_unload ⟨hs, []⟩ =
      (⟨hs.map fun _ => TaskHandle.mk true, []⟩,
        hs.map fun _ => RedisEffect.cancelHandler) := by
  simp [cog_unload]

/-- C9: registry shutdown is idempotent — after one completed
`cog_unload`, running `cog_unload` again leaves the cog state unchanged
and performs no unsubscribe side effect (its only effects are the
harmless re-cancellations of already-cancelled tasks; the model is a
total function, so no error is raised either). -/
theorem cog_unload_idempotent (s : RedisHandlerState) :
    (cog_unload (cog_unload s).1).1 = (cog_unload s).1 ∧
    (cog_unload (cog_unload s).1).2.filter isUnsubscribe = [] := by
  have e1 : (cog_unload s).1 =
      ⟨s.handlers.map (fun _ => TaskHandle.mk true), []⟩ := by
    calc (cog_unload s).1
        = ⟨(cog_unload s).1.handlers, (cog_unload s).1.channels⟩ := rfl
      _ = ⟨s.handlers.map (fun _ => TaskHandle.mk true), []⟩ := by
          rw [cog_unload_channels_nil]
          rfl
  rw [e1, cog_unload_no_channels]
  constructor
  · simp [List.map_map, Function.comp]
  · exact filter_unsub_cancel _

/-- C2 counterexample: deliver `[0, 1]` on one channel where message `0`
fails to decode and message `1` would decode fine — the decode error is
not caught inside the loop: it escapes and terminates the channel's
receive loop, and the handler never runs for message `1` (the trace of
handler invocations is empty), contradicting "the next delivered message
on the same channel is still processed". -/
theorem channel_handler_crash_counterexample :
    channel_handler
        (fun m : Nat => if m == 0 then (Except.error () : Except Unit Nat) else Except.ok m)
        (fun _ => (Except.ok () : Except Unit Unit)) [0, 1] =
      ([], some (LoopErr.decodeFailed ())) := rfl

/-- C2 (amended): the receive loop of `channel_handler` contains no
error handling — a message whose decode fails, or a handler invocation
that raises, makes that error escape the loop immediately and terminates
the channel's processing: no later delivered message on the channel is
decoded or handled (the loop's outcome does not depend on the remaining
messages `ms`). -/
theorem channel_handler_error_escapes {μ π δ η : Type}
    (decode : μ → Except δ π) (handler : π → Except η Unit)
    (m : μ) (ms : List μ) :
    (∀ e, decode m = Except.error e →
      channel_handler decode handler (m :: ms) = ([], some (LoopErr.decodeFailed e))) ∧
    (∀ p e, decode m = Except.ok p → handler p = Except.error e →
      channel_handler decode handler (m :: ms) = ([p], some (LoopErr.handlerFailed e))) := by
  constructor
  · intro e he
    simp [channel_handler, he]
  · intro p e hp hh
    simp [channel_handler, hp, hh]

/-- Witness for the amended C2: a failing decode and a failing handler,
each followed by a further delivered message that is never processed. -/
theorem channel_handler_error_escapes_witness :
    channel_handler
        (fun m : Nat => if m == 0 then (Except.error 7 : Except Nat Nat) else Except.ok m)
        (fun p => if p == 1 then (Except.error 8 : Except Nat Unit) else Except.ok ()) [0, 5] =
      ([], some (LoopErr.decodeFailed 7)) ∧
    channel_handler
        (fun m : Nat => if m == 0 then (Except.error 7 : Except Nat Nat) else Except.ok m)
        (fun p => if p == 1 then (Except.error 8 : Except Nat Unit) else Except.ok ()) [1, 5] =
      ([1], some (LoopErr.handlerFailed 8)) := by
  exact ⟨(channel_handler_error_escapes _ _ 0 [5]).1 7 rfl,
         (channel_handler_error_escapes _ _ 1 [5]).2 1 8 rfl rfl⟩

/-- C3: for every sequence of delivered messages on one channel (each of
which decodes successfully, to `dec m`, and whose handler invocation
returns normally), the loop invokes the handler exactly once per message
and the trace of handler invocations is exactly the delivered sequence's
decodes in delivery order; the loop is sequential by construction — the
recursive call for the remaining messages happens only after the current
handler invocation has returned. -/
theorem channel_handler_in_order {μ π δ η : Type}
    (decode : μ → Except δ π) (dec : μ → π) (handler : π → Except η Unit)
    (ms : List μ)
    (hdec : ∀ m ∈ ms, decode m = Except.ok (dec m))
    (hh : ∀ p, handler p = Except.ok ()) :
    channel_handler decode handler ms = (ms.map dec, none) := by
  induction ms with
  | nil => rfl
  | cons m ms ih =>
    have h1 : decode m = Except.ok (dec m) := hdec m (List.mem_cons_self m ms)
    have h2 := hh (dec m)
    have ih2 := ih (fun x hx => hdec x (List.mem_cons_of_mem m hx))
    simp [channel_handler, h1, h2, ih2]

/-- Witness for C3: three messages, each decoded by adding one, handled
in delivery order. -/
theorem channel_handler_in_order_witness :
    channel_handler (fun m : Nat => (Except.ok (m + 1) : Except Unit Nat))
        (fun _ => (Except.ok () : Except Unit Unit)) [3, 4, 5] = ([4, 5, 6], none) := by
  have h := channel_handler_in_order
      (fun m : Nat => (Except.ok (m + 1) : Except Unit Nat)) (fun m => m + 1)
      (fun _ => (Except.ok () : Except Unit Unit)) [3, 4, 5]
      (fun m _ => rfl) (fun p => rfl)
  simpa using h

/-- C1: the composite two-row `marry` write is atomic, for every backend
`ins` whose successful inserts append exactly the inserted row.  If both
constituent `INSERT` statements succeed then `marry` commits and both
symmetric rows `(instigator, target, guild)` and `(target, instigator,
guild)` are in the committed table afterwards; and if `marry` raises (it
raises exactly when a constituent statement raises), the transaction is
rolled back: the committed table any reader sees is unchanged and no
transaction is left open. -/
theorem marry_atomic
    (ins : List Row → Row → Except PyError (List Row))
    (hins : ∀ db r db', ins db r = Except.ok db' → db' = db ++ [r])
    (instigator target : UserArg) (guild_id timestamp : Nat) (s : DbState) :
    (∀ db1 db2,
      ins s.committedRows ⟨userArgId instigator, userArgId target, guild_id, timestamp⟩ =
        Except.ok db1 →
      ins db1 ⟨userArgId target, userArgId instigator, guild_id, timestamp⟩ =
        Except.ok db2 →
      (marry ins instigator target guild_id timestamp s).1 = Except.ok () ∧
      (⟨userArgId instigator, userArgId target, guild_id, timestamp⟩ : Row) ∈
        (marry ins instigator target guild_id timestamp s).2.committedRows ∧
      (⟨userArgId target, userArgId instigator, guild_id, timestamp⟩ : Row) ∈
        (marry ins instigator target guild_id timestamp s).2.committedRows) ∧
    (∀ e, (marry ins instigator target guild_id timestamp s).1 = Except.error e →
      (marry ins instigator target guild_id timestamp s).2.committedRows = s.committedRows ∧
      (marry ins instigator target guild_id timestamp s).2.transaction = none) := by
  constructor
  · intro db1 db2 h1 h2
    have hdb1 := hins _ _ _ h1
    have hdb2 := hins _ _ _ h2
    subst hdb2
    subst hdb1
    refine ⟨?_, ?_, ?_⟩ <;>
      simp [marry, start_transaction, run_insert, commit_transaction, h1, h2,
        List.mem_append]
  · intro e he
    cases h1 : ins s.committedRows
        ⟨userArgId instigator, userArgId target, guild_id, timestamp⟩ with
    | error e1 =>
      constructor <;>
        simp [marry, start_transaction, run_insert, rollback_transaction, h1]
    | ok db1 =>
      cases h2 : ins db1
          ⟨userArgId target, userArgId instigator, guild_id, timestamp⟩ with
      | error e2 =>
        constructor <;>
          simp [marry, start_transaction, run_insert, rollback_transaction, h1, h2]
      | ok db2 =>
        exact absurd he (by simp [marry, start_transaction, run_insert,
          commit_transaction, h1, h2])

/-- Witness for C1: with the duplicate-key backend, marrying 1 and 2 in
guild 9 from an empty table commits both symmetric rows; and when the
second insert is forced to fail (the symmetric row already exists), the
table is left exactly as it was. -/
theorem marry_atomic_witness :
    (marry pgInsert (UserArg.rawId 1) (UserArg.user 2) 9 5 ⟨[], true, none⟩).1 =
      Except.ok () ∧
    (⟨1, 2, 9, 5⟩ : Row) ∈
      (marry pgInsert (UserArg.rawId 1) (UserArg.user 2) 9 5 ⟨[], true, none⟩).2.committedRows ∧
    (⟨2, 1, 9, 5⟩ : Row) ∈
      (marry pgInsert (UserArg.rawId 1) (UserArg.user 2) 9 5 ⟨[], true, none⟩).2.committedRows ∧
    (marry pgInsert (UserArg.rawId 1) (UserArg.rawId 2) 9 5
        ⟨[⟨2, 1, 9, 0⟩], true, none⟩).2.committedRows = [⟨2, 1, 9, 0⟩] := by
  have hA := (marry_atomic pgInsert pgInsert_append (UserArg.rawId 1) (UserArg.user 2)
      9 5 ⟨[], true, none⟩).1 [⟨1, 2, 9, 5⟩] [⟨1, 2, 9, 5⟩, ⟨2, 1, 9, 5⟩] rfl rfl
  have hB := (marry_atomic pgInsert pgInsert_append (UserArg.rawId 1) (UserArg.rawId 2)
      9 5 ⟨[⟨2, 1, 9, 0⟩], true, none⟩).2 PyError.uniqueViolation rfl
  exact ⟨hA.1, hA.2.1, hA.2.2, hB.1⟩

/-- C5: when a constituent `INSERT` of the composite `marry` write raises
an error `e` — the first one, or the second after the first succeeded —
the transaction is rolled back (marker cleared, committed table
unchanged) and then exactly `e`, the original causative error, is
re-raised to the caller, neither swallowed nor replaced. -/
theorem marry_reraises_original
    (ins : List Row → Row → Except PyError (List Row))
    (instigator target : UserArg) (guild_id timestamp : Nat)
    (s : DbState) (e : PyError)
    (h : ins s.committedRows
        ⟨userArgId instigator, userArgId target, guild_id, timestamp⟩ = Except.error e ∨
      ∃ db1,
        ins s.committedRows
          ⟨userArgId instigator, userArgId target, guild_id, timestamp⟩ = Except.ok db1 ∧
        ins db1 ⟨userArgId target, userArgId instigator, guild_id, timestamp⟩ =
          Except.error e) :
    (marry ins instigator target guild_id timestamp s).1 = Except.error e ∧
    (marry ins instigator target guild_id timestamp s).2.transaction = none ∧
    (marry ins instigator target guild_id timestamp s).2.committedRows = s.committedRows := by
  rcases h with h1 | ⟨db1, h1, h2⟩
  · refine ⟨?_, ?_, ?_⟩ <;>
      simp [marry, start_transaction, run_insert, rollback_transaction, h1]
  · refine ⟨?_, ?_, ?_⟩ <;>
      simp [marry, start_transaction, run_insert, rollback_transaction, h1, h2]

/-- Witness for C5: the second insert hits a duplicate-key violation, and
`marry` surfaces exactly that violation after rolling back. -/
theorem marry_reraises_original_witness :
    (marry pgInsert (UserArg.rawId 1) (UserArg.rawId 2) 9 5
        ⟨[⟨2, 1, 9, 0⟩], true, none⟩).1 = Except.error PyError.uniqueViolation ∧
    (marry pgInsert (UserArg.rawId 1) (UserArg.rawId 2) 9 5
        ⟨[⟨2, 1, 9, 0⟩], true, none⟩).2.transaction = none ∧
    (marry pgInsert (UserArg.rawId 1) (UserArg.rawId 2) 9 5
        ⟨[⟨2, 1, 9, 0⟩], true, none⟩).2.committedRows = [⟨2, 1, 9, 0⟩] :=
  marry_reraises_original pgInsert (UserArg.rawId 1) (UserArg.rawId 2) 9 5
    ⟨[⟨2, 1, 9, 0⟩], true, none⟩ PyError.uniqueViolation
    (Or.inr ⟨[⟨2, 1, 9, 0⟩, ⟨1, 2, 9, 5⟩], rfl, rfl⟩)

/-- C10: a successful composite `marry` write appends exactly two rows to
the committed table, and the pair carries the identical timestamp value —
the single `dt.utcnow()` reading captured before either insert (the
`timestamp` parameter) — so the two symmetric rows can never disagree on
timestamp. -/
theorem marry_timestamp_consistent
    (ins : List Row → Row → Except PyError (List Row))
    (hins : ∀ db r db', ins db r = Except.ok db' → db' = db ++ [r])
    (instigator target : UserArg) (guild_id timestamp : Nat) (s : DbState)
    (hok : (marry ins instigator target guild_id timestamp s).1 = Except.ok ()) :
    ∃ r1 r2,
      (marry ins instigator target guild_id timestamp s).2.committedRows =
        s.committedRows ++ [r1, r2] ∧
      r1.timestamp = r2.timestamp ∧ r1.timestamp = timestamp := by
  cases h1 : ins s.committedRows
      ⟨userArgId instigator, userArgId target, guild_id, timestamp⟩ with
  | error e1 =>
    exact absurd hok (by simp [marry, start_transaction, run_insert, h1])
  | ok db1 =>
    cases h2 : ins db1
        ⟨userArgId target, userArgId instigator, guild_id, timestamp⟩ with
    | error e2 =>
      exact absurd hok (by simp [marry, start_transaction, run_insert, h1, h2])
    | ok db2 =>
      refine ⟨⟨userArgId instigator, userArgId target, guild_id, timestamp⟩,
        ⟨userArgId target, userArgId instigator, guild_id, timestamp⟩, ?_, rfl, rfl⟩
      have hdb1 := hins _ _ _ h1
      have hdb2 := hins _ _ _ h2
      subst hdb2
      subst hdb1
      simp [marry, start_transaction, run_insert, commit_transaction, h1, h2]

/-- Witness for C10: a fresh marriage of 3 and 4 in guild 7 produces two
rows both stamped with the single captured timestamp 11. -/
theorem marry_timestamp_consistent_witness :
    ∃ r1 r2,
      (marry pgInsert (UserArg.user 3) (UserArg.user 4) 7 11 ⟨[], true, none⟩).2.committedRows =
        ([] : List Row) ++ [r1, r2] ∧
      r1.timestamp = r2.timestamp ∧ r1.timestamp = 11 :=
  marry_timestamp_consistent pgInsert pgInsert_append (UserArg.user 3) (UserArg.user 4)
    7 11 ⟨[], true, none⟩ rfl

end MarriageBot
